import Mathlib

/-!
Verification of `generate_icon.py` (CursorConnector app-icon generator).

The script computes five polygon vertices as rational fractions of the
canvas size, draws them white on a black square canvas, and writes four
fixed PNG files.  We embed the arithmetic over `ℚ` (the Python constants
0.35, 0.12, … are exact decimal literals), the raster as a pixel function,
the polygon fill as an even-odd point-inclusion test, and the batch driver
as a fold over a filesystem state.
-/

namespace GenerateIcon

/-- `BLACK = (0, 0, 0)` from the source. -/
def BLACK : ℕ × ℕ × ℕ := (0, 0, 0)

/-- `WHITE = (255, 255, 255)` from the source. -/
def WHITE : ℕ × ℕ × ℕ := (255, 255, 255)

/-- `scale = 0.35 * s` from `cursor_polygon`. -/
def scale (s : ℚ) : ℚ := 0.35 * s

/-- `pad = 0.12 * s` from `cursor_polygon`. -/
def pad (s : ℚ) : ℚ := 0.12 * s

/-- `cursor_polygon(size)` from the source: the five arrow vertices, in
source order (tip, head corner, stem end, stem inner, back to head). -/
def cursor_polygon (size : ℤ) : List (ℚ × ℚ) :=
  [ (pad size, pad size + scale size * 0.45),
    (pad size + scale size * 0.45, pad size),
    (pad size + scale size * 0.5, pad size),
    (pad size + scale size * 0.5, pad size + scale size * 0.85),
    (pad size + scale size * 0.38, pad size + scale size * 0.7) ]

/-- The five vertices exactly as the spec (§4.1) writes them, with
`scale = 0.35·s`, `pad = 0.12·s`: a second definition following the
spec's words, to be compared with `cursor_polygon` from the source. -/
def spec_vertices (s : ℤ) : List (ℚ × ℚ) :=
  [ (0.12 * s, 0.12 * s + 0.45 * (0.35 * s)),
    (0.12 * s + 0.45 * (0.35 * s), 0.12 * s),
    (0.12 * s + 0.5 * (0.35 * s), 0.12 * s),
    (0.12 * s + 0.5 * (0.35 * s), 0.12 * s + 0.85 * (0.35 * s)),
    (0.12 * s + 0.38 * (0.35 * s), 0.12 * s + 0.7 * (0.35 * s)) ]

/-- Round a rational to one decimal place (the spec's "(rounded)"). -/
def round1 (x : ℚ) : ℚ := (round (10 * x) : ℤ) / 10

/-- An in-memory raster: square canvas dimensions and a pixel map.
Pixels outside `[0,width) × [0,height)` are irrelevant. -/
structure Image where
  width : ℤ
  height : ℤ
  pixel : ℤ → ℤ → ℕ × ℕ × ℕ

/-- One even-odd ray-casting step: does the horizontal ray from `p`
rightwards cross the edge `a`–`b`? -/
def edgeCrossing (p a b : ℚ × ℚ) : Bool :=
  (decide (p.2 < a.2) != decide (p.2 < b.2)) &&
  decide (p.1 < a.1 + (p.2 - a.2) * (b.1 - a.1) / (b.2 - a.2))

/-- The edges of a closed polygon: consecutive vertex pairs, wrapping
around from the last vertex back to the first. -/
def polygonEdges : List (ℚ × ℚ) → List ((ℚ × ℚ) × (ℚ × ℚ))
  | [] => []
  | v :: vs => (v :: vs).zip (vs ++ [v])

/-- Even-odd point-in-polygon test: parity of ray crossings. -/
def pointInPolygon (poly : List (ℚ × ℚ)) (p : ℚ × ℚ) : Bool :=
  (polygonEdges poly).foldl (fun acc e => acc != edgeCrossing p e.1 e.2) false

/-- Modelled from the spec: `Image.new("RGB", (w, h), color)` of the imaging
library (the library is absent from src/) — an in-memory square raster,
three 8-bit channels, every pixel initialized to the given color; an
invalid (negative) size is the library failure that the spec says
"propagates from the underlying drawing/encoding call unmodified". -/
def imageNew (size : ℤ) (color : ℕ × ℕ × ℕ) : Option Image :=
  if 0 ≤ size then some ⟨size, size, fun _ _ => color⟩ else none

/-- Modelled from the spec: `draw.polygon(xy, fill, outline=None)` of the
imaging library — "nonzero/even-odd polygon fill (library default), solid
white, ... no outline stroke", sampled at integer pixel coordinates. -/
def polygonFill (img : Image) (poly : List (ℚ × ℚ)) (color : ℕ × ℕ × ℕ) : Image :=
  { img with pixel := fun x y =>
      if pointInPolygon poly ((x : ℚ), (y : ℚ)) then color else img.pixel x y }

/-- `draw_icon(canvas_size)` from the source: new black RGB square canvas,
cursor polygon filled solid white, no outline. -/
def draw_icon (canvas_size : ℤ) : Option Image :=
  (imageNew canvas_size BLACK).map
    (fun img => polygonFill img (cursor_polygon canvas_size) WHITE)

/-- The raster `draw_icon` produces for a valid size. -/
def icon_image (s : ℤ) : Image :=
  ⟨s, s, fun x y =>
    if pointInPolygon (cursor_polygon s) ((x : ℚ), (y : ℚ)) then WHITE else BLACK⟩

/-- Filesystem-and-console state threaded through the batch driver:
written files (most recent first) and printed lines (in order). -/
structure FSState where
  files : List (String × Image)
  output : List String

/-- The fixed manifest `sizes` from `main`, in source order. -/
def sizes : List (ℤ × String) :=
  [(120, "Icon-120.png"), (180, "Icon-180.png"),
   (152, "Icon-152.png"), (1024, "AppIcon.png")]

/-- `out_dir = "."` from `main`. -/
def out_dir : String := "."

/-- The loop of `main`: per manifest entry, draw the icon, save it under
`out_dir + "/" + name`, print `"Wrote " + name`.  `writeOk` is modelled
from the spec: the environment's verdict on each save call (e.g.
unwritable directory).  A failing draw or save stops the run at once
(flag `false`), leaving the state as after the entries already done. -/
def runEntries (writeOk : String → Bool) :
    List (ℤ × String) → FSState → FSState × Bool
  | [], st => (st, true)
  | (size, name) :: rest, st =>
    match draw_icon size with
    | none => (st, false)
    | some img =>
      if writeOk (out_dir ++ "/" ++ name) then
        runEntries writeOk rest
          { files := (out_dir ++ "/" ++ name, img) :: st.files,
            output := st.output ++ ["Wrote " ++ name] }
      else (st, false)

/-- `main()` from the source, run against initial filesystem state `st`
with save verdicts `writeOk`. -/
def main_run (writeOk : String → Bool) (st : FSState) : FSState × Bool :=
  runEntries writeOk sizes st

/-- Every save succeeds: the normal run. -/
def allOk : String → Bool := fun _ => true

/-- A save verdict that fails exactly on the third manifest entry's path. -/
def failAt152 : String → Bool := fun p => ! (p == "./Icon-152.png")

/-- Look a path up in the state: the most recent write wins. -/
def lookupFile (st : FSState) (path : String) : Option Image :=
  st.files.lookup path

end GenerateIcon

namespace GenerateIcon

/-- Interior sample points: the quarter-diagonal pixel lies in the arrow. -/
lemma pip_white_120 : pointInPolygon (cursor_polygon 120) (30, 30) = true := by
  simp only [pointInPolygon, cursor_polygon, pad, scale, polygonEdges,
    List.zip, List.zipWith, List.foldl, edgeCrossing]
  norm_num

lemma pip_white_152 : pointInPolygon (cursor_polygon 152) (38, 38) = true := by
  simp only [pointInPolygon, cursor_polygon, pad, scale, polygonEdges,
    List.zip, List.zipWith, List.foldl, edgeCrossing]
  norm_num

lemma pip_white_180 : pointInPolygon (cursor_polygon 180) (45, 45) = true := by
  simp only [pointInPolygon, cursor_polygon, pad, scale, polygonEdges,
    List.zip, List.zipWith, List.foldl, edgeCrossing]
  norm_num

lemma pip_white_1024 : pointInPolygon (cursor_polygon 1024) (256, 256) = true := by
  simp only [pointInPolygon, cursor_polygon, pad, scale, polygonEdges,
    List.zip, List.zipWith, List.foldl, edgeCrossing]
  norm_num

/-- Folding xor over edges that never cross leaves the accumulator alone. -/
lemma foldl_bne_of_false {E : Type} (g : E → Bool) :
    ∀ (l : List E), (∀ e ∈ l, g e = false) → ∀ acc : Bool,
      l.foldl (fun a e => a != g e) acc = acc
  | [], _, acc => rfl
  | e :: l, h, acc => by
    have he : g e = false := h e (List.mem_cons_self e l)
    rw [List.foldl_cons, he]
    have hacc : (acc != false) = acc := by cases acc <;> rfl
    rw [hacc]
    exact foldl_bne_of_false g l (fun x hx => h x (List.mem_cons_of_mem e hx)) acc

/-- A point strictly below both endpoints of an edge never crosses it. -/
lemma edgeCrossing_eq_false (p a b : ℚ × ℚ) (h1 : p.2 < a.2) (h2 : p.2 < b.2) :
    edgeCrossing p a b = false := by
  simp [edgeCrossing, h1, h2]

/-- A point strictly below every vertex is outside the polygon. -/
lemma pointInPolygon_eq_false (poly : List (ℚ × ℚ)) (p : ℚ × ℚ)
    (h : ∀ v ∈ poly, p.2 < v.2) : pointInPolygon poly p = false := by
  cases poly with
  | nil => rfl
  | cons v vs =>
    apply foldl_bne_of_false
    intro e he
    obtain ⟨h1, h2⟩ := List.of_mem_zip he
    have h2' : e.2 ∈ v :: vs := by
      rcases List.mem_append.mp h2 with h' | h'
      · exact List.mem_cons_of_mem v h'
      · simp only [List.mem_singleton] at h'
        simp [h']
    exact edgeCrossing_eq_false p e.1 e.2 (h e.1 h1) (h e.2 h2')

/-- The canvas corner (0,0) is outside the arrow for every positive size. -/
lemma corner_outside (s : ℤ) (hs : 0 < s) :
    pointInPolygon (cursor_polygon s) (0, 0) = false := by
  have h1 : (1 : ℚ) ≤ (s : ℚ) := by exact_mod_cast hs
  apply pointInPolygon_eq_false
  intro v hv
  simp only [cursor_polygon, pad, scale, List.mem_cons, List.not_mem_nil,
    or_false] at hv
  rcases hv with rfl | rfl | rfl | rfl | rfl <;> dsimp only <;> nlinarith [h1]

/-- The five vertices at size 120, each coordinate rounded to one decimal. -/
lemma cursor_polygon_120_rounded :
    (cursor_polygon 120).map (fun p => (round1 p.1, round1 p.2)) =
      [(14.4, 33.3), (33.3, 14.4), (35.4, 14.4), (35.4, 50.1), (30.4, 43.8)] := by
  simp only [cursor_polygon, pad, scale, List.map, round1]
  norm_num [round_eq]

/-- Claim C1: for every canvas side s, `cursor_polygon` computes exactly the
five vertices of §4.1 with scale = 0.35·s and pad = 0.12·s, in the spec's
order. -/
theorem c1_vertices_match_spec (s : ℤ) : cursor_polygon s = spec_vertices s := by
  simp only [cursor_polygon, spec_vertices, pad, scale, List.cons.injEq,
    Prod.mk.injEq, and_true]
  and_intros <;> ring_nf

/-- Witness for C1 at the concrete size 7. -/
theorem c1_vertices_match_spec_witness : cursor_polygon 7 = spec_vertices 7 :=
  c1_vertices_match_spec 7

/-- Claim C3 counterexample: at size 120 the vertex list rounded to one
decimal place is NOT the spec's list — the fourth vertex is (35.4, 50.1),
not (35.4, 46.1), and the fifth is (30.4, 43.8), not (28.4, 43.8). -/
theorem c3_counterexample :
    ¬ ((cursor_polygon 120).map (fun p => (round1 p.1, round1 p.2)) =
        [(14.4, 33.3), (33.3, 14.4), (35.4, 14.4), (35.4, 46.1), (28.4, 43.8)]) := by
  rw [cursor_polygon_120_rounded]
  intro h
  simp only [List.cons.injEq, Prod.mk.injEq] at h
  norm_num at h

/-- Claim C3 (amended): invoking the generator with size 120 yields the five
vertices (14.4, 33.3), (33.3, 14.4), (35.4, 14.4), (35.4, 50.1), (30.4, 43.8)
when each coordinate is rounded to one decimal place, and every vertex lies
within [0,120] × [0,120]. -/
theorem c3_vertices_at_120 :
    (cursor_polygon 120).map (fun p => (round1 p.1, round1 p.2)) =
      [(14.4, 33.3), (33.3, 14.4), (35.4, 14.4), (35.4, 50.1), (30.4, 43.8)] ∧
    ∀ p ∈ cursor_polygon 120,
      0 ≤ p.1 ∧ p.1 ≤ 120 ∧ 0 ≤ p.2 ∧ p.2 ≤ 120 := by
  refine ⟨cursor_polygon_120_rounded, ?_⟩
  intro p hp
  simp only [cursor_polygon, pad, scale, List.mem_cons, List.not_mem_nil,
    or_false] at hp
  rcases hp with rfl | rfl | rfl | rfl | rfl <;> dsimp only <;> norm_num

/-- Claim C4: for every positive integer size s, each of the five computed
vertices has both coordinates within [0.12·s, 0.62·s], hence within the
canvas bounds [0, s]. -/
theorem c4_vertex_bounds (s : ℤ) (hs : 0 < s) :
    ∀ p ∈ cursor_polygon s,
      (0.12 * (s : ℚ) ≤ p.1 ∧ p.1 ≤ 0.62 * (s : ℚ) ∧
       0.12 * (s : ℚ) ≤ p.2 ∧ p.2 ≤ 0.62 * (s : ℚ)) ∧
      (0 ≤ p.1 ∧ p.1 ≤ (s : ℚ) ∧ 0 ≤ p.2 ∧ p.2 ≤ (s : ℚ)) := by
  have h1 : (1 : ℚ) ≤ (s : ℚ) := by exact_mod_cast hs
  intro p hp
  simp only [cursor_polygon, pad, scale, List.mem_cons, List.not_mem_nil,
    or_false] at hp
  rcases hp with rfl | rfl | rfl | rfl | rfl <;> dsimp only <;>
    refine ⟨⟨by nlinarith, by nlinarith, by nlinarith, by nlinarith⟩,
      by nlinarith, by nlinarith, by nlinarith, by nlinarith⟩

/-- Claim C8: the vertex computation is homogeneous in the size — scaling
the size by a positive integer factor k scales every vertex by k. -/
theorem c8_homogeneous (s k : ℤ) (_hk : 0 < k) :
    cursor_polygon (k * s) =
      (cursor_polygon s).map (fun p => ((k : ℚ) * p.1, (k : ℚ) * p.2)) := by
  simp only [cursor_polygon, pad, scale, List.map, List.cons.injEq,
    Prod.mk.injEq, and_true]
  push_cast
  and_intros <;> ring_nf

/-- Witness for C8 at the concrete sizes s = 2, k = 3. -/
theorem c8_homogeneous_witness :
    (0 : ℤ) < 3 ∧
    cursor_polygon (3 * 2) =
      (cursor_polygon 2).map (fun p => (((3 : ℤ) : ℚ) * p.1, ((3 : ℤ) : ℚ) * p.2)) :=
  ⟨by decide, c8_homogeneous 2 3 (by decide)⟩

/-- Claim C9: a strictly tighter containment than the spec's bound — every
vertex coordinate lies within [0.12·s, 0.4175·s], and the maximum 0.4175·s
is attained (at the stem-end y coordinate pad + 0.85·scale). -/
theorem c9_tight_bounds (s : ℤ) (hs : 0 < s) :
    (∀ p ∈ cursor_polygon s,
      0.12 * (s : ℚ) ≤ p.1 ∧ p.1 ≤ 0.4175 * (s : ℚ) ∧
      0.12 * (s : ℚ) ≤ p.2 ∧ p.2 ≤ 0.4175 * (s : ℚ)) ∧
    ∃ p ∈ cursor_polygon s, p.2 = 0.4175 * (s : ℚ) := by
  have h1 : (1 : ℚ) ≤ (s : ℚ) := by exact_mod_cast hs
  constructor
  · intro p hp
    simp only [cursor_polygon, pad, scale, List.mem_cons, List.not_mem_nil,
      or_false] at hp
    rcases hp with rfl | rfl | rfl | rfl | rfl <;> dsimp only <;>
      refine ⟨by nlinarith, by nlinarith, by nlinarith, by nlinarith⟩
  · refine ⟨(pad s + scale s * 0.5, pad s + scale s * 0.85), ?_, ?_⟩
    · simp [cursor_polygon]
    · dsimp only [pad, scale]
      ring

/-- Witness for C9 at the concrete size 8. -/
theorem c9_tight_bounds_witness :
    (0 : ℤ) < 8 ∧
    ((∀ p ∈ cursor_polygon 8,
      0.12 * ((8 : ℤ) : ℚ) ≤ p.1 ∧ p.1 ≤ 0.4175 * ((8 : ℤ) : ℚ) ∧
      0.12 * ((8 : ℤ) : ℚ) ≤ p.2 ∧ p.2 ≤ 0.4175 * ((8 : ℤ) : ℚ)) ∧
    ∃ p ∈ cursor_polygon 8, p.2 = 0.4175 * ((8 : ℤ) : ℚ)) :=
  ⟨by decide, c9_tight_bounds 8 (by decide)⟩

/-- Claim C10: `cursor_polygon` validates nothing and is total — for every
integer size, also zero and negative, it returns exactly five coordinate
pairs; only the canvas allocation inside `draw_icon` can fail, and it does
so exactly for the invalid (negative) sizes. -/
theorem c10_cursor_polygon_total (size : ℤ) :
    (cursor_polygon size).length = 5 ∧
    (draw_icon size).isSome = decide (0 ≤ size) := by
  constructor
  · rfl
  · by_cases h : 0 ≤ size <;> simp [draw_icon, imageNew, h]

/-- Witness for C10 at the concrete (negative) size -5. -/
theorem c10_cursor_polygon_total_witness :
    (cursor_polygon (-5)).length = 5 ∧
    (draw_icon (-5)).isSome = decide ((0 : ℤ) ≤ -5) :=
  c10_cursor_polygon_total (-5)

/-- Claim C2: the batch driver iterates exactly the fixed four-entry
manifest in order, invokes the generator once per entry, writes exactly one
s×s file per entry into the working directory under the entry's fixed name,
and prints one confirmation line per file written, in order. -/
theorem c2_manifest_run :
    main_run allOk ⟨[], []⟩ =
      (⟨[("./AppIcon.png", icon_image 1024), ("./Icon-152.png", icon_image 152),
          ("./Icon-180.png", icon_image 180), ("./Icon-120.png", icon_image 120)],
        ["Wrote Icon-120.png", "Wrote Icon-180.png",
         "Wrote Icon-152.png", "Wrote AppIcon.png"]⟩, true) ∧
    sizes = [(120, "Icon-120.png"), (180, "Icon-180.png"),
             (152, "Icon-152.png"), (1024, "AppIcon.png")] ∧
    draw_icon 120 = some (icon_image 120) ∧
    draw_icon 180 = some (icon_image 180) ∧
    draw_icon 152 = some (icon_image 152) ∧
    draw_icon 1024 = some (icon_image 1024) ∧
    (icon_image 120).width = 120 ∧ (icon_image 120).height = 120 ∧
    (icon_image 180).width = 180 ∧ (icon_image 180).height = 180 ∧
    (icon_image 152).width = 152 ∧ (icon_image 152).height = 152 ∧
    (icon_image 1024).width = 1024 ∧ (icon_image 1024).height = 1024 :=
  ⟨rfl, rfl, rfl, rfl, rfl, rfl, rfl, rfl, rfl, rfl, rfl, rfl, rfl, rfl⟩

/-- Claim C6: the pipeline is deterministic and idempotent — from any
initial filesystem state the run stores the same image under each manifest
path (so two runs on equal inputs yield equal outputs, and re-running
overwrites each existing file with identical content). -/
theorem c6_deterministic (st : FSState) :
    (lookupFile (main_run allOk st).1 "./Icon-120.png" = some (icon_image 120) ∧
     lookupFile (main_run allOk st).1 "./Icon-180.png" = some (icon_image 180) ∧
     lookupFile (main_run allOk st).1 "./Icon-152.png" = some (icon_image 152) ∧
     lookupFile (main_run allOk st).1 "./AppIcon.png" = some (icon_image 1024)) ∧
    (lookupFile (main_run allOk (main_run allOk st).1).1 "./Icon-120.png" =
       lookupFile (main_run allOk st).1 "./Icon-120.png" ∧
     lookupFile (main_run allOk (main_run allOk st).1).1 "./Icon-180.png" =
       lookupFile (main_run allOk st).1 "./Icon-180.png" ∧
     lookupFile (main_run allOk (main_run allOk st).1).1 "./Icon-152.png" =
       lookupFile (main_run allOk st).1 "./Icon-152.png" ∧
     lookupFile (main_run allOk (main_run allOk st).1).1 "./AppIcon.png" =
       lookupFile (main_run allOk st).1 "./AppIcon.png") :=
  ⟨⟨rfl, rfl, rfl, rfl⟩, ⟨rfl, rfl, rfl, rfl⟩⟩

/-- Witness for C6 at the empty initial filesystem state. -/
theorem c6_deterministic_witness :
    (lookupFile (main_run allOk ⟨[], []⟩).1 "./Icon-120.png" = some (icon_image 120) ∧
     lookupFile (main_run allOk ⟨[], []⟩).1 "./Icon-180.png" = some (icon_image 180) ∧
     lookupFile (main_run allOk ⟨[], []⟩).1 "./Icon-152.png" = some (icon_image 152) ∧
     lookupFile (main_run allOk ⟨[], []⟩).1 "./AppIcon.png" = some (icon_image 1024)) ∧
    (lookupFile (main_run allOk (main_run allOk ⟨[], []⟩).1).1 "./Icon-120.png" =
       lookupFile (main_run allOk ⟨[], []⟩).1 "./Icon-120.png" ∧
     lookupFile (main_run allOk (main_run allOk ⟨[], []⟩).1).1 "./Icon-180.png" =
       lookupFile (main_run allOk ⟨[], []⟩).1 "./Icon-180.png" ∧
     lookupFile (main_run allOk (main_run allOk ⟨[], []⟩).1).1 "./Icon-152.png" =
       lookupFile (main_run allOk ⟨[], []⟩).1 "./Icon-152.png" ∧
     lookupFile (main_run allOk (main_run allOk ⟨[], []⟩).1).1 "./AppIcon.png" =
       lookupFile (main_run allOk ⟨[], []⟩).1 "./AppIcon.png") :=
  c6_deterministic ⟨[], []⟩

/-- For a valid size the generator returns exactly the expected raster. -/
lemma draw_icon_eq (s : ℤ) (hs : 0 ≤ s) : draw_icon s = some (icon_image s) := by
  simp only [draw_icon, imageNew]
  rw [if_pos hs]
  rfl

/-- Claim C5 counterexample: the claim quantifies over every positive size,
but at size 1 the (valid) 1×1 raster contains no white pixel at all — the
polygon, contained in [0.12, 0.4175]², covers no integer pixel coordinate. -/
theorem c5_counterexample :
    draw_icon 1 = some (icon_image 1) ∧
    ¬ ∃ x y : ℤ, 0 ≤ x ∧ x < 1 ∧ 0 ≤ y ∧ y < 1 ∧
        (icon_image 1).pixel x y = WHITE := by
  constructor
  · exact draw_icon_eq 1 (by decide)
  · rintro ⟨x, y, hx0, hx1, hy0, hy1, hw⟩
    have hx : x = 0 := by omega
    have hy : y = 0 := by omega
    subst hx
    subst hy
    have hc : pointInPolygon (cursor_polygon 1) (0, 0) = false :=
      corner_outside 1 (by decide)
    simp only [icon_image, Int.cast_zero, hc] at hw
    simp only [Bool.false_eq_true, if_false] at hw
    exact absurd hw (by decide)

/-- Claim C5 (amended): for every positive size s the generator yields an
s×s three-channel raster whose pixels are the black background except the
even-odd polygon fill in solid white; the corner pixel (0,0) is black for
every positive s, and for each of the four manifest sizes at least one
pixel inside the arrow region is white. -/
theorem c5_raster (s : ℤ) (hs : 0 < s) :
    draw_icon s = some (icon_image s) ∧
    (icon_image s).width = s ∧ (icon_image s).height = s ∧
    (icon_image s).pixel = (fun (x y : ℤ) =>
      if pointInPolygon (cursor_polygon s) ((x : ℚ), (y : ℚ))
      then WHITE else BLACK) ∧
    (icon_image s).pixel 0 0 = BLACK ∧
    (icon_image 120).pixel 30 30 = WHITE ∧
    (icon_image 152).pixel 38 38 = WHITE ∧
    (icon_image 180).pixel 45 45 = WHITE ∧
    (icon_image 1024).pixel 256 256 = WHITE := by
  refine ⟨draw_icon_eq s hs.le, rfl, rfl, rfl, ?_, ?_, ?_, ?_, ?_⟩
  · simp only [icon_image, Int.cast_zero]
    rw [corner_outside s hs]
    simp
  · norm_num [icon_image, pip_white_120]
  · norm_num [icon_image, pip_white_152]
  · norm_num [icon_image, pip_white_180]
  · norm_num [icon_image, pip_white_1024]

/-- Witness for C5 at the concrete size 120. -/
theorem c5_raster_witness :
    (0 : ℤ) < 120 ∧
    (draw_icon 120 = some (icon_image 120) ∧
     (icon_image 120).width = 120 ∧ (icon_image 120).height = 120 ∧
     (icon_image 120).pixel = (fun (x y : ℤ) =>
       if pointInPolygon (cursor_polygon 120) ((x : ℚ), (y : ℚ))
       then WHITE else BLACK) ∧
     (icon_image 120).pixel 0 0 = BLACK ∧
     (icon_image 120).pixel 30 30 = WHITE ∧
     (icon_image 152).pixel 38 38 = WHITE ∧
     (icon_image 180).pixel 45 45 = WHITE ∧
     (icon_image 1024).pixel 256 256 = WHITE) :=
  ⟨by decide, c5_raster 120 (by decide)⟩

/-- The driver's loop stops at the first failing entry: the state stays as
after the preceding entries and no later entry is reflected. -/
lemma runEntries_stop (writeOk : String → Bool) :
    ∀ (pre : List (ℤ × String)) (size : ℤ) (name : String)
      (post : List (ℤ × String)) (st : FSState),
      (∀ e ∈ pre, writeOk (out_dir ++ "/" ++ e.2) = true) →
      (∀ e ∈ pre, 0 ≤ e.1) →
      (draw_icon size = none ∨ writeOk (out_dir ++ "/" ++ name) = false) →
      runEntries writeOk (pre ++ (size, name) :: post) st =
        ((runEntries writeOk pre st).1, false) ∧
      (runEntries writeOk pre st).2 = true
  | [], size, name, post, st, _, _, hstop => by
    constructor
    · simp only [List.nil_append]
      rcases hstop with hdraw | hfail
      · simp [runEntries, hdraw]
      · cases hdi : draw_icon size with
        | none => simp [runEntries, hdi]
        | some img => simp [runEntries, hdi, hfail]
    · rfl
  | (sz, nm) :: pre, size, name, post, st, hpre, hpos, hstop => by
    have hok : writeOk (out_dir ++ "/" ++ nm) = true :=
      hpre (sz, nm) (List.mem_cons_self _ _)
    have hsz : (0 : ℤ) ≤ sz := hpos (sz, nm) (List.mem_cons_self _ _)
    have hdraw : draw_icon sz = some (icon_image sz) := draw_icon_eq sz hsz
    have ih := runEntries_stop writeOk pre size name post
      { files := (out_dir ++ "/" ++ nm, icon_image sz) :: st.files,
        output := st.output ++ ["Wrote " ++ nm] }
      (fun e he => hpre e (List.mem_cons_of_mem _ he))
      (fun e he => hpos e (List.mem_cons_of_mem _ he)) hstop
    constructor
    · simp only [List.cons_append, runEntries, hdraw, hok, if_true]
      exact ih.1
    · simp only [runEntries, hdraw, hok, if_true]
      exact ih.2

/-- Claim C7: no error is caught — if the drawing or file-write step for a
manifest entry fails, the run terminates there: the files written for the
earlier entries remain unchanged, and no later entry is attempted (the
result does not depend on the entries after the failing one). -/
theorem c7_error_stops_run (writeOk : String → Bool) (pre post : List (ℤ × String))
    (size : ℤ) (name : String) (st : FSState)
    (hsplit : sizes = pre ++ (size, name) :: post)
    (hpre : ∀ e ∈ pre, writeOk (out_dir ++ "/" ++ e.2) = true)
    (hstop : draw_icon size = none ∨ writeOk (out_dir ++ "/" ++ name) = false) :
    main_run writeOk st = ((runEntries writeOk pre st).1, false) ∧
    (runEntries writeOk pre st).2 = true ∧
    ∀ post2, runEntries writeOk (pre ++ (size, name) :: post2) st =
      ((runEntries writeOk pre st).1, false) := by
  have hpos : ∀ e ∈ pre, (0 : ℤ) ≤ e.1 := by
    intro e he
    have hmem : e ∈ sizes := by
      rw [hsplit]
      exact List.mem_append_left _ he
    simp only [sizes, List.mem_cons, List.not_mem_nil, or_false] at hmem
    rcases hmem with rfl | rfl | rfl | rfl <;> decide
  have h := runEntries_stop writeOk pre size name post st hpre hpos hstop
  refine ⟨?_, h.2,
    fun post2 => (runEntries_stop writeOk pre size name post2 st hpre hpos hstop).1⟩
  simp only [main_run]
  rw [hsplit]
  exact h.1

/-- Witness for C7: the save of the third entry fails, the first two files
survive, the fourth entry is never attempted. -/
theorem c7_error_stops_run_witness :
    main_run failAt152 ⟨[], []⟩ =
      ((runEntries failAt152 [(120, "Icon-120.png"), (180, "Icon-180.png")]
          ⟨[], []⟩).1, false) ∧
    (runEntries failAt152 [(120, "Icon-120.png"), (180, "Icon-180.png")]
        ⟨[], []⟩).2 = true ∧
    ∀ post2, runEntries failAt152
        ([(120, "Icon-120.png"), (180, "Icon-180.png")] ++
          (152, "Icon-152.png") :: post2) ⟨[], []⟩ =
      ((runEntries failAt152 [(120, "Icon-120.png"), (180, "Icon-180.png")]
          ⟨[], []⟩).1, false) :=
  c7_error_stops_run failAt152 [(120, "Icon-120.png"), (180, "Icon-180.png")]
    [(1024, "AppIcon.png")] 152 "Icon-152.png" ⟨[], []⟩ rfl
    (by decide) (Or.inr (by decide))

/-- Witness for C4 at the concrete size 3. -/
theorem c4_vertex_bounds_witness :
    (0 : ℤ) < 3 ∧
    ∀ p ∈ cursor_polygon 3,
      (0.12 * ((3 : ℤ) : ℚ) ≤ p.1 ∧ p.1 ≤ 0.62 * ((3 : ℤ) : ℚ) ∧
       0.12 * ((3 : ℤ) : ℚ) ≤ p.2 ∧ p.2 ≤ 0.62 * ((3 : ℤ) : ℚ)) ∧
      (0 ≤ p.1 ∧ p.1 ≤ ((3 : ℤ) : ℚ) ∧ 0 ≤ p.2 ∧ p.2 ≤ ((3 : ℤ) : ℚ)) :=
  ⟨by decide, c4_vertex_bounds 3 (by decide)⟩

end GenerateIcon
